import Mathlib

/-!
# Verification of the quantitative scoring & risk-managed position engine

Shallow embedding of the algorithmic core of the `ai-stock-trader` repository:
`src/utils/risk_manager.py`, `src/utils/technical_analysis.py`,
`src/strategies/moving_average_strategy.py` and the signal-threshold mapping of
`src/strategies/ai_stock_picker.py`.

Modelling conventions:
* Python floats are modelled as exact rationals (`ℚ`).  Where IEEE semantics
  matter (division by zero producing `inf`/`NaN` rather than an exception in
  numpy/pandas), the corresponding case split is written out explicitly and
  commented at the definition.
* Python `int(x)` (truncation toward zero) is `truncInt`.
* A Python `dict` is an association list with unique keys; assignment to an
  existing key replaces the value in place, assignment to a fresh key appends.
* Code paths that would raise an uncaught Python exception are modelled with
  `Option` (`none` = the call raises instead of returning).
-/

set_option maxRecDepth 4000

namespace StockTrader

/-- Python `int(x)` for a float `x`: truncation toward zero. -/
def truncInt (q : ℚ) : ℤ := if q < 0 then ⌈q⌉ else ⌊q⌋

/-- The last `n` elements of a list (`xs[-n:]` for `n ≥ 1`). -/
def lastN (n : ℕ) (xs : List ℚ) : List ℚ := xs.drop (xs.length - n)

/-- Consecutive differences (`series.diff()` without the leading `NaN`). -/
def diffs (xs : List ℚ) : List ℚ := (xs.zip xs.tail).map (fun p => p.2 - p.1)

/-! ## Risk manager (`src/utils/risk_manager.py`) -/

/-- Risk levels of `RiskLevel` in `risk_manager.py`. -/
inductive RiskLevel where
  | LOW | MEDIUM | HIGH | EXTREME
deriving DecidableEq

/-- One entry of `RiskManager.positions` (the `add_position` dict; the
`add_time` wall-clock string is not modelled — no computation reads it). -/
structure Position where
  shares : ℤ
  cost_price : ℚ
  target_weight : ℚ
deriving DecidableEq

/-- One entry of `RiskManager.trade_history` as appended by `remove_position`
(the `time` wall-clock string is not modelled — no computation reads it). -/
structure Trade where
  symbol : String
  shares : ℤ
  buy_price : ℚ
  sell_price : ℚ
  profit_pct : ℚ
deriving DecidableEq

/-- The constructor parameters of `RiskManager.__init__` (immutable after
construction). -/
structure RMConfig where
  initial_capital : ℚ
  max_position_weight : ℚ
  stop_loss_ratio : ℚ
  take_profit_ratio : ℚ
  max_drawdown_limit : ℚ
  max_position_count : ℕ
deriving DecidableEq

/-- The defaults of `RiskManager.__init__`. -/
def defaultRMConfig : RMConfig :=
  { initial_capital := 10000
    max_position_weight := 3/10
    stop_loss_ratio := 1/10
    take_profit_ratio := 1/5
    max_drawdown_limit := 3/20
    max_position_count := 5 }

/-- The mutable state of a `RiskManager`: `positions` is the insertion-ordered
dict `symbol → position`, `trade_history` the append-only trade log,
`equity_curve` the list of recorded equity values (`e['value']`). -/
structure RMState where
  positions : List (String × Position)
  trade_history : List Trade
  equity_curve : List ℚ
deriving DecidableEq

/-- `symbol in self.positions` / `self.positions[symbol]` on the dict model. -/
def posLookup (ps : List (String × Position)) (k : String) : Option Position :=
  (ps.find? (fun p => p.1 == k)).map (fun p => p.2)

/-- `self.positions[symbol] = v`: replace in place if the key exists (keys
are unique, so the first hit is the only one), otherwise append — Python
dict insertion-order semantics. -/
def dictInsert : List (String × Position) → String → Position →
    List (String × Position)
  | [], k, v => [(k, v)]
  | p :: ps, k, v => if p.1 == k then (k, v) :: ps else p :: dictInsert ps k v

/-- `del self.positions[symbol]` on the dict model. -/
def dictErase (ps : List (String × Position)) (k : String) :
    List (String × Position) :=
  ps.filter (fun p => !(p.1 == k))

/-- `RiskManager.calculate_position_size` (lines 90–131).  The wrapping
`try/except` can only fire on a float division by zero, and in the branch past
the `risk_per_share <= 0` guard we have `price * stop_loss_ratio > 0`, hence
`price ≠ 0` and no divisor is zero — the except path is unreachable. -/
def calculate_position_size (cfg : RMConfig) (price available_capital : ℚ)
    (risk_per_trade : ℚ := 1/50) : ℤ :=
  let risk_amount := available_capital * risk_per_trade
  let stop_loss_price := price * (1 - cfg.stop_loss_ratio)
  let risk_per_share := price - stop_loss_price
  if risk_per_share ≤ 0 then 0
  else
    let shares := truncInt (risk_amount / risk_per_share / 100) * 100
    let max_shares :=
      truncInt (available_capital * cfg.max_position_weight / price / 100) * 100
    min shares max_shares

/-- `RiskManager.add_position` (lines 211–236): rejected (state unchanged) for
non-positive shares or price, otherwise the dict entry for `symbol` is
assigned the fresh record — an existing position is overwritten, not
averaged. -/
def add_position (st : RMState) (symbol : String) (shares : ℤ) (price : ℚ)
    (target_weight : ℚ := 1/5) : RMState :=
  if shares ≤ 0 ∨ price ≤ 0 then st
  else
    { st with
      positions :=
        dictInsert st.positions symbol
          { shares := shares, cost_price := price, target_weight := target_weight } }

/-- `RiskManager.remove_position` (lines 238–269): no-op when the symbol is
not held; otherwise appends the realized trade and deletes the position.
(`cost_price = 0` would be a Python `ZeroDivisionError`, but `add_position`
only ever stores positive prices; in `ℚ` the division is total.) -/
def remove_position (st : RMState) (symbol : String) (sell_price : ℚ) : RMState :=
  match posLookup st.positions symbol with
  | none => st
  | some pos =>
    let profit_pct := (sell_price - pos.cost_price) / pos.cost_price * 100
    { st with
      positions := dictErase st.positions symbol
      trade_history := st.trade_history ++
        [{ symbol := symbol, shares := pos.shares, buy_price := pos.cost_price,
           sell_price := sell_price, profit_pct := profit_pct }] }

/-- The fields of the `RiskMetrics` dataclass that `calculate_risk_metrics`
fills in (the remaining dataclass fields stay at their zero defaults and are
read by nothing). -/
structure RMetricsOut where
  total_return : ℚ
  position_count : ℕ
  cash_ratio : ℚ
  concentration : ℚ
  max_drawdown : ℚ
  risk_level : RiskLevel
deriving DecidableEq

/-- `RiskManager._assess_risk_level` (lines 316–325). -/
def assess_risk_level (max_drawdown concentration : ℚ) : RiskLevel :=
  if max_drawdown > 20 then .EXTREME
  else if max_drawdown > 10 ∨ concentration > 4/10 then .HIGH
  else if max_drawdown > 5 ∨ concentration > 3/10 then .MEDIUM
  else .LOW

/-- `RiskManager.calculate_risk_metrics` (lines 271–314).  With
`initial_capital = 0` the very first statement divides by zero and the method
raises `ZeroDivisionError` instead of returning — modelled as `none`.
`cash_ratio`/`concentration` keep their dataclass defaults (`0.0`) when
positions exist but `current_value ≤ 0`, and are `1.0`/`0` when no positions
are held; `max_drawdown` stays `0` unless the equity curve has > 1 points. -/
def calculate_risk_metrics (cfg : RMConfig) (st : RMState) (current_value : ℚ) :
    Option RMetricsOut :=
  if cfg.initial_capital = 0 then none
  else
    let total_return :=
      (current_value - cfg.initial_capital) / cfg.initial_capital * 100
    let cash_ratio :=
      if st.positions ≠ [] then
        (if 0 < current_value then
          (current_value -
            (st.positions.map (fun p => (p.2.shares : ℚ) * p.2.cost_price)).sum)
            / current_value
         else 0)
      else 1
    let concentration :=
      if st.positions ≠ [] then
        (if 0 < current_value then
          ((st.positions.map (fun p => p.2.target_weight)).foldl max 0)
         else 0)
      else 0
    let max_drawdown :=
      if 1 < st.equity_curve.length then
        let peak := st.equity_curve.foldl max
          (st.equity_curve.headI)
        if 0 < peak then (peak - st.equity_curve.getLastD 0) / peak * 100 else 0
      else 0
    some
      { total_return := total_return
        position_count := st.positions.length
        cash_ratio := cash_ratio
        concentration := concentration
        max_drawdown := max_drawdown
        risk_level := assess_risk_level max_drawdown concentration }

/-- `RiskManager.should_stop_trading` (lines 372–394): drawdown circuit
breaker (only checked when `initial_capital > 0`), then the
three-consecutive-losses check on the last three recorded trades. -/
def should_stop_trading (cfg : RMConfig) (st : RMState) (current_value : ℚ) :
    Bool × String :=
  if 0 < cfg.initial_capital ∧
      cfg.max_drawdown_limit ≤
        (cfg.initial_capital - current_value) / cfg.initial_capital then
    (true, "触发最大回撤限制")
  else if 3 ≤ st.trade_history.length ∧
      (st.trade_history.drop (st.trade_history.length - 3)).all
        (fun t => t.profit_pct < 0) then
    (true, "连续3笔亏损")
  else (false, "")

/-! ## Technical analysis (`src/utils/technical_analysis.py`) -/

/-- `TrendType` in `technical_analysis.py`. -/
inductive TrendType where
  | UPTREND | DOWNTREND | SIDEWAYS | UNKNOWN
deriving DecidableEq

/-- `SignalType` in `technical_analysis.py`. -/
inductive SignalType where
  | BUY | SELL | HOLD | STRONG_BUY | STRONG_SELL
deriving DecidableEq

/-- One row of the OHLCV dataframe (`open`, `high`, `low`, `close`, `vol`).
`open` is a Lean keyword, hence `open_`. -/
structure Bar where
  open_ : ℚ
  high : ℚ
  low : ℚ
  close : ℚ
  vol : ℚ
deriving DecidableEq

/-- The `TechnicalIndicators` dataclass: every numeric field defaults to
`None`, `trend` to `UNKNOWN`, `score` to `50`. -/
structure TechnicalIndicators where
  ma5 : Option ℚ := none
  ma10 : Option ℚ := none
  ma20 : Option ℚ := none
  ma60 : Option ℚ := none
  ma120 : Option ℚ := none
  ema5 : Option ℚ := none
  ema10 : Option ℚ := none
  ema20 : Option ℚ := none
  macd : Option ℚ := none
  signal : Option ℚ := none
  histogram : Option ℚ := none
  rsi6 : Option ℚ := none
  rsi12 : Option ℚ := none
  rsi24 : Option ℚ := none
  bollinger_upper : Option ℚ := none
  bollinger_middle : Option ℚ := none
  bollinger_lower : Option ℚ := none
  bollinger_width : Option ℚ := none
  atr14 : Option ℚ := none
  atr10 : Option ℚ := none
  volume_ma5 : Option ℚ := none
  volume_ma10 : Option ℚ := none
  volume_ma20 : Option ℚ := none
  volume_ratio : Option ℚ := none
  trend : TrendType := .UNKNOWN
  score : ℤ := 50
deriving DecidableEq

/-- `TechnicalAnalyzer._sma`: `None` for insufficient history, else the mean
of the last `period` values.  (All call sites pass a fixed `period ≥ 5`.) -/
def sma (xs : List ℚ) (period : ℕ) : Option ℚ :=
  if xs.length < period then none
  else some ((lastN period xs).sum / period)

/-- `series.ewm(span=n, adjust=False).mean()` as a list:
`y₀ = x₀`, `yᵢ = (1-α)·yᵢ₋₁ + α·xᵢ` with `α` passed explicitly. -/
def ewmList (alpha : ℚ) : List ℚ → List ℚ
  | [] => []
  | x :: xs => List.scanl (fun acc y => (1 - alpha) * acc + alpha * y) x xs

/-- `TechnicalAnalyzer._ema` (smoothing `α = 2/(span+1)`, seeded at the first
value because `adjust=False`). -/
def ema (xs : List ℚ) (period : ℕ) : Option ℚ :=
  if xs.length < period then none
  else (ewmList (2 / ((period : ℚ) + 1)) xs).getLast?

/-- The MACD line of `TechnicalAnalyzer._macd`: `EMA(12) − EMA(26)`
pointwise, `α₁₂ = 2/13`, `α₂₆ = 2/27`. -/
def macd_line (closes : List ℚ) : List ℚ :=
  List.zipWith (· - ·) (ewmList (2/13) closes) (ewmList (2/27) closes)

/-- The MACD signal line: `EMA(9)` of the MACD line (`α₉ = 2/10`). -/
def macd_signal_line (closes : List ℚ) : List ℚ :=
  ewmList (2/10) (macd_line closes)

/-- The gains/losses deltas feeding `_rsi`: the window of `rolling(period)`
at the last bar covers the last `period` consecutive differences, i.e. the
differences of the last `period+1` closes.  (`diff()`'s leading `NaN` sits at
index 0, outside that window whenever `len ≥ period+1`.) -/
def rsi_deltas (closes : List ℚ) (period : ℕ) : List ℚ :=
  diffs (lastN (period + 1) closes)

/-- The rolling average gain of `_rsi` at the last bar. -/
def avg_gain_last (closes : List ℚ) (period : ℕ) : ℚ :=
  ((rsi_deltas closes period).map (fun d => max d 0)).sum / period

/-- The rolling average loss of `_rsi` at the last bar. -/
def avg_loss_last (closes : List ℚ) (period : ℕ) : ℚ :=
  ((rsi_deltas closes period).map (fun d => max (-d) 0)).sum / period

/-- `TechnicalAnalyzer._rsi` (lines 251–266).  The division `avg_gain /
avg_loss` is a numpy float division: with `avg_loss = 0` it yields `inf`
(positive gain, so `rsi = 100 - 100/(1+inf) = 100`, which passes the
`pd.isna` check unchanged) or `NaN` (`0/0`, caught by `pd.isna` → `50.0`);
no exception is ever raised.  Both zero-divisor cases are written out. -/
def rsi (closes : List ℚ) (period : ℕ) : ℚ :=
  if closes.length < period + 1 then 50
  else if avg_loss_last closes period = 0 then
    (if avg_gain_last closes period = 0 then 50 else 100)
  else
    100 - 100 / (1 + avg_gain_last closes period / avg_loss_last closes period)

/-- Sample variance (`ddof=1`, pandas default) of the last `w` values — the
square of `rolling(w).std()` at the last bar (defined call sites have
`w ≤ len`). -/
def rollingVarLast (w : ℕ) (xs : List ℚ) : ℚ :=
  let ys := lastN w xs
  let m := ys.sum / (w : ℚ)
  (ys.map (fun y => (y - m) ^ 2)).sum / ((w : ℚ) - 1)

/-- The rolling standard deviation feeding the Bollinger bands.  The source
takes a floating-point square root, which has no exact rational counterpart;
`Rat.sqrt` is the stand-in.  No claim in this development reads any
Bollinger field. -/
def rollingStdLast (w : ℕ) (xs : List ℚ) : ℚ :=
  Rat.sqrt (rollingVarLast w xs)

/-- The True Range series of `TechnicalAnalyzer._atr`: at index 0 the
`close.shift(1)` terms are `NaN` and the row-wise `max` (which skips `NaN`)
leaves `high − low`; later rows take the three-way max. -/
def true_range (highs lows closes : List ℚ) : List ℚ :=
  match highs, lows with
  | h0 :: _, l0 :: _ =>
    (h0 - l0) ::
      List.zipWith (fun (hl : ℚ × ℚ) (pc : ℚ) =>
          max (hl.1 - hl.2) (max |hl.1 - pc| |hl.2 - pc|))
        (highs.tail.zip lows.tail) closes.dropLast
  | _, _ => []

/-- `TechnicalAnalyzer._atr` (lines 278–290): `None` below `period+1` bars,
else the mean of the last `period` True Range values. -/
def atr (highs lows closes : List ℚ) (period : ℕ) : Option ℚ :=
  if highs.length < period + 1 then none
  else some ((lastN period (true_range highs lows closes)).sum / period)

/-- `TechnicalAnalyzer._judge_trend` (lines 292–307).  From
`calculate_indicators` the `ma60` argument is always `some` (≥ 60 bars); a
`none` there would be a Python `TypeError` comparison, mapped to `UNKNOWN`
here and unreachable from `calculate_indicators`. -/
def judge_trend (ma5? ma20? ma60? : Option ℚ) : TrendType :=
  match ma5?, ma20? with
  | some ma5, some ma20 =>
    match ma60? with
    | some ma60 =>
      if ma5 > ma20 ∧ ma20 > ma60 ∧ ma5 > ma20 * (102/100) then .UPTREND
      else if ma5 < ma20 ∧ ma20 < ma60 ∧ ma5 < ma20 * (98/100) then .DOWNTREND
      else .SIDEWAYS
    | none => .UNKNOWN
  | _, _ => .UNKNOWN

/-- `TechnicalAnalyzer._calc_comprehensive_score` (lines 309–335): base 50,
±20 for trend, ±10 for MACD histogram sign, RSI12 adjustments, clamped to
[0, 100]. -/
def comprehensive_score (trend : TrendType) (histogram? rsi12? : Option ℚ) : ℤ :=
  let s0 : ℤ := 50
  let s1 := s0 +
    (if trend = .UPTREND then 20 else if trend = .DOWNTREND then -20 else 0)
  let s2 := s1 +
    (match histogram? with
     | some h => if h > 0 then 10 else if h < 0 then -10 else 0
     | none => 0)
  let s3 := s2 +
    (match rsi12? with
     | some r =>
       if 40 ≤ r ∧ r ≤ 60 then 5 else if r > 70 then -5
       else if r < 30 then 5 else 0
     | none => 0)
  max (min s3 100) 0

/-- `TechnicalAnalyzer.calculate_indicators` (lines 94–161): fewer than 60
bars returns the sentinel `TechnicalIndicators()` (the method never raises —
the guard catches short input and the `try/except` swallows anything else);
otherwise every field is computed from the series.  The `.iloc[-1]` reads on
MACD and Bollinger series are `getLast?`/`getD` (all defined, as
`len ≥ 60`); the Bollinger-width division by a zero middle band would be a
numpy `inf`, written here as total `ℚ` division (no claim reads it). -/
def calculate_indicators (df : List Bar) : TechnicalIndicators :=
  if df.length < 60 then {}
  else
    let close := df.map Bar.close
    let high := df.map Bar.high
    let low := df.map Bar.low
    let volume := df.map Bar.vol
    let ml := macd_line close
    let sl := macd_signal_line close
    let hist := (List.zipWith (· - ·) ml sl).getLast?
    let ma5 := sma close 5
    let ma20 := sma close 20
    let ma60 := sma close 60
    let rsi12v := rsi close 12
    let bmiddle := (sma close 20).getD 0
    let bstd := rollingStdLast 20 close
    let bupper := bmiddle + 2 * bstd
    let blower := bmiddle - 2 * bstd
    let vma20 := (sma volume 20).getD 0
    let trend := judge_trend ma5 ma20 ma60
    { ma5 := ma5
      ma10 := sma close 10
      ma20 := ma20
      ma60 := ma60
      ma120 := if 120 ≤ df.length then sma close 120 else none
      ema5 := ema close 5
      ema10 := ema close 10
      ema20 := ema close 20
      macd := ml.getLast?
      signal := sl.getLast?
      histogram := hist
      rsi6 := some (rsi close 6)
      rsi12 := some rsi12v
      rsi24 := some (rsi close 24)
      bollinger_upper := some bupper
      bollinger_middle := some bmiddle
      bollinger_lower := some blower
      bollinger_width := some ((bupper - blower) / bmiddle * 100)
      atr14 := atr high low close 14
      atr10 := atr high low close 10
      volume_ma5 := sma volume 5
      volume_ma10 := sma volume 10
      volume_ma20 := sma volume 20
      volume_ratio := some (if 0 < vma20 then volume.getLastD 0 / vma20 else 1)
      trend := trend
      score := comprehensive_score trend hist (some rsi12v) }

/-- The result dict of `TechnicalAnalyzer.generate_signal` (`signal`,
`score`, `reason`; the `indicators` echo and the `details` string list are
side-effect-free commentary no claim reads and are omitted). -/
structure TASignal where
  signal : SignalType
  score : Option ℤ
  reason : String
deriving DecidableEq

/-- `TechnicalAnalyzer.generate_signal` (lines 163–226): HOLD on
insufficient data (`ma5 is None`), otherwise the composite score is mapped
through the 80/65/45/30 thresholds. -/
def ta_generate_signal (df : List Bar) : TASignal :=
  let indicators := calculate_indicators df
  match indicators.ma5 with
  | none => { signal := .HOLD, score := none, reason := "数据不足" }
  | some _ =>
    let score := indicators.score
    if score ≥ 80 then { signal := .STRONG_BUY, score := some score, reason := "技术面全面向好" }
    else if score ≥ 65 then { signal := .BUY, score := some score, reason := "技术面偏强" }
    else if score ≥ 45 then { signal := .HOLD, score := some score, reason := "技术面中性" }
    else if score ≥ 30 then { signal := .SELL, score := some score, reason := "技术面偏弱" }
    else { signal := .STRONG_SELL, score := some score, reason := "技术面全面走弱" }

/-- The score→signal threshold chain of `AIStockPicker.generate_trading_signal`
(`ai_stock_picker.py` lines 231–246): 80 / 65 / 50 / 35 cut points. -/
def ai_signal_from_score (score : ℚ) : String :=
  if score ≥ 80 then "strong_buy"
  else if score ≥ 65 then "buy"
  else if score ≥ 50 then "hold"
  else if score ≥ 35 then "sell"
  else "strong_sell"

/-! ## Moving-average strategies (`src/strategies/moving_average_strategy.py`) -/

/-- `self.position` of `MovingAverageStrategy`: Python `None` / `'long'`.
(`flat` stands for Python `None`.) -/
inductive PosState where
  | flat | long
deriving DecidableEq

/-- The `signal`/`reason` part of the strategy's result dict (the `price` /
`ma_short` / `ma_long` echoes are plain copies of inputs no claim reads). -/
structure MASignal where
  signal : SignalType
  reason : String
deriving DecidableEq

/-- `rolling(window=w).mean()` read at the last row: `NaN` (here `none`)
when fewer than `w` rows exist.  Comparisons against `NaN` are `False` in
pandas, see `optGt`.  (`w = 0` would raise in pandas; modelled as `none`,
and every theorem's call sites use positive windows.) -/
def rollingMeanLast (w : ℕ) (xs : List ℚ) : Option ℚ :=
  if w = 0 ∨ xs.length < w then none
  else some ((lastN w xs).sum / w)

/-- A `>` comparison between two possibly-`NaN` floats: `False` unless both
are real numbers (pandas/numpy semantics). -/
def optGt (a b : Option ℚ) : Bool :=
  match a, b with
  | some x, some y => decide (y < x)
  | _, _ => false

/-- `latest['ma_short'] > latest['ma_long']` on the full close series. -/
def ma_short_above (short_ma long_ma : ℕ) (closes : List ℚ) : Bool :=
  optGt (rollingMeanLast short_ma closes) (rollingMeanLast long_ma closes)

/-- Golden cross at the last bar: short MA above at `-1`, not above at `-2`
(the `-2` row reads the rolling means of the series without its last
element). -/
def golden_cross (short_ma long_ma : ℕ) (closes : List ℚ) : Bool :=
  ma_short_above short_ma long_ma closes &&
    !(ma_short_above short_ma long_ma closes.dropLast)

/-- Death cross at the last bar: short MA not above at `-1`, above at `-2`. -/
def death_cross (short_ma long_ma : ℕ) (closes : List ℚ) : Bool :=
  !(ma_short_above short_ma long_ma closes) &&
    ma_short_above short_ma long_ma closes.dropLast

/-- `MovingAverageStrategy.generate_signal` (lines 55–118), with the
dataframe fetched by `self.api.get_daily_price(symbol)` passed in as the
close series and the instance field `self.position` threaded explicitly.
Note the state is one field of the strategy object — there is no per-symbol
keying anywhere.  On a golden cross with the state already `long` (and on a
death cross without a held position) the `if` bodies are skipped and the
trailing HOLD return runs, with the state untouched. -/
def ma_generate_signal (short_ma long_ma : ℕ) (closes : List ℚ)
    (position : PosState) : MASignal × PosState :=
  if closes.length < long_ma + 5 then
    ({ signal := .HOLD, reason := "数据不足" }, position)
  else if golden_cross short_ma long_ma closes then
    if position ≠ .long then ({ signal := .BUY, reason := "金叉" }, .long)
    else ({ signal := .HOLD, reason := "无交叉信号" }, position)
  else if death_cross short_ma long_ma closes then
    if position = .long then ({ signal := .SELL, reason := "死叉" }, .flat)
    else ({ signal := .HOLD, reason := "无交叉信号" }, position)
  else ({ signal := .HOLD, reason := "无交叉信号" }, position)

/-- `generate_signal` as actually invoked: the symbol only selects which
close series the data API hands back; the carried state is the same single
instance field whichever symbol is passed. -/
def ma_generate_signal_sym (short_ma long_ma : ℕ) (market : String → List ℚ)
    (symbol : String) (position : PosState) : MASignal × PosState :=
  ma_generate_signal short_ma long_ma (market symbol) position

/-- `DualMAStrategy.filter_by_trend` (lines 144–163): vacuously true below
60 bars, else requires the last close strictly above the 60-bar mean. -/
def filter_by_trend (closes : List ℚ) : Bool :=
  if closes.length < 60 then true
  else optGt (some (closes.getLastD 0)) (rollingMeanLast 60 closes)

/-- `close.pct_change()` without the leading `NaN`: `none` overall when some
previous close is 0 with a different current close (a `±inf` return, which
poisons the standard deviation into `NaN`); a `0/0` bar is `NaN` and is
skipped by `std`'s `skipna`, i.e. dropped here. -/
def pct_returns (closes : List ℚ) : Option (List ℚ) :=
  (closes.zip closes.tail).foldr
    (fun (pc : ℚ × ℚ) (acc : Option (List ℚ)) =>
      match acc with
      | none => none
      | some rs =>
        if pc.1 = 0 then (if pc.2 = 0 then some rs else none)
        else some (((pc.2 - pc.1) / pc.1) :: rs))
    (some [])

/-- Sample variance (`ddof=1`) of a list of returns; `none` when fewer than
two values remain (pandas `std` gives `NaN` there). -/
def sampleVar (xs : List ℚ) : Option ℚ :=
  if xs.length ≤ 1 then none
  else
    let m := xs.sum / (xs.length : ℚ)
    some ((xs.map (fun x => (x - m) ^ 2)).sum / ((xs.length : ℚ) - 1))

/-- `DualMAStrategy.filter_by_volatility` (lines 165–183): vacuously true
below 20 bars; else `returns.std() * 100 < 5.0`.  The standard deviation is
irrational in general, so the strictly equivalent squared comparison
`var·100² < 5²` is used (`std ≥ 0`, and both `NaN` branches — an infinite
return or fewer than two returns — make the `<` comparison `False`). -/
def filter_by_volatility (closes : List ℚ) : Bool :=
  if closes.length < 20 then true
  else
    match pct_returns closes with
    | none => false
    | some rs =>
      match sampleVar rs with
      | none => false
      | some v => decide (v * 10000 < 25)

/-- `DualMAStrategy.generate_signal` (lines 185–213): the data-sufficiency
guard, then the trend filter, then the volatility filter (each returning
HOLD with its reason and leaving `self.position` untouched), then the
parent's cross logic. -/
def dual_ma_generate_signal (short_ma long_ma : ℕ) (closes : List ℚ)
    (position : PosState) : MASignal × PosState :=
  if closes.length < long_ma + 5 then
    ({ signal := .HOLD, reason := "数据不足" }, position)
  else if !(filter_by_trend closes) then
    ({ signal := .HOLD, reason := "不符合趋势条件" }, position)
  else if !(filter_by_volatility closes) then
    ({ signal := .HOLD, reason := "波动过大" }, position)
  else ma_generate_signal short_ma long_ma closes position

/-! ## Concrete instances used by witnesses and counterexamples -/

/-- The empty portfolio state of a freshly constructed `RiskManager`. -/
def emptyRMState : RMState := { positions := [], trade_history := [], equity_curve := [] }

/-- A configuration with a negative stop-loss ratio (the constructor accepts
any float). -/
def cfgNegSL : RMConfig := { defaultRMConfig with stop_loss_ratio := -1/10 }

/-- A configuration with negative initial capital (the constructor accepts
any float). -/
def cfgNegIC : RMConfig := { defaultRMConfig with initial_capital := -100 }

/-- A configuration with zero initial capital (the constructor accepts any
float). -/
def cfgZeroIC : RMConfig := { defaultRMConfig with initial_capital := 0 }

/-- A portfolio already holding symbol `"A"`: 100 shares at cost 10. -/
def stHoldingA : RMState :=
  { positions := [("A", { shares := 100, cost_price := 10, target_weight := 1/5 })]
    trade_history := [], equity_curve := [] }

/-- A losing trade (−10% realized). -/
def losingTrade : Trade :=
  { symbol := "A", shares := 100, buy_price := 10, sell_price := 9, profit_pct := -10 }

/-- Flat OHLCV bar at 100. -/
def flatBar : Bar := { open_ := 100, high := 100, low := 100, close := 100, vol := 100 }

/-- 60 flat bars — enough history for the full indicator pipeline. -/
def df60 : List Bar := List.replicate 60 flatBar

/-- 24 flat closes then a spike: MA5 crosses above MA20 at the last bar. -/
def dfGold : List ℚ := List.replicate 24 100 ++ [200]

/-- 24 rising closes then a crash: MA5 crosses below MA20 at the last bar. -/
def dfDeath : List ℚ :=
  [1, 2, 3, 4, 5, 6, 7, 8, 9, 10, 11, 12, 13, 14, 15, 16, 17, 18, 19, 20,
   21, 22, 23, 24, -100]

/-- A two-symbol market: `"A"` serves the golden-cross series, every other
symbol the death-cross series. -/
def marketAB : String → List ℚ := fun s => if s = "A" then dfGold else dfDeath

/-- 60 flat closes: the trend filter rejects (price is not strictly above
its 60-bar mean). -/
def dfFlat60 : List ℚ := List.replicate 60 100

/-! ## Helper lemmas -/

theorem truncInt_nonneg {q : ℚ} (h : 0 ≤ q) : 0 ≤ truncInt q := by
  unfold truncInt
  rw [if_neg (not_lt.mpr h)]
  exact Int.floor_nonneg.mpr h

theorem truncInt_le {q : ℚ} (h : 0 ≤ q) : (truncInt q : ℚ) ≤ q := by
  unfold truncInt
  rw [if_neg (not_lt.mpr h)]
  exact Int.floor_le q

theorem truncInt_intCast (n : ℤ) : truncInt ((n : ℚ)) = n := by
  unfold truncInt
  split <;> simp

theorem truncInt_eq_of_eq_intCast {q : ℚ} {n : ℤ} (h : q = (n : ℚ)) :
    truncInt q = n := by rw [h, truncInt_intCast]

theorem death_cross_eq_false_of_golden {s l : ℕ} {closes : List ℚ}
    (h : golden_cross s l closes = true) : death_cross s l closes = false := by
  unfold golden_cross at h
  unfold death_cross
  cases hab : ma_short_above s l closes with
  | false => rw [hab] at h; simp at h
  | true => simp [hab]

theorem find?_key_eq_none_of_posLookup_none {ps : List (String × Position)}
    {k : String} (h : posLookup ps k = none) :
    ps.find? (fun p => p.1 == k) = none := by
  unfold posLookup at h
  rcases hf : ps.find? (fun p => p.1 == k) with _ | p
  · exact hf
  · rw [hf] at h; simp at h

theorem posLookup_dictInsert (ps : List (String × Position)) (k : String)
    (v : Position) : posLookup (dictInsert ps k v) k = some v := by
  induction ps with
  | nil => simp [dictInsert, posLookup]
  | cons p ps ih =>
    by_cases hk : (p.1 == k) = true
    · simp [dictInsert, hk, posLookup]
    · rw [Bool.not_eq_true] at hk
      unfold dictInsert
      rw [if_neg (by simp [hk])]
      unfold posLookup at ih ⊢
      simpa [hk] using ih

theorem dictInsert_of_posLookup_none (v : Position)
    (ps : List (String × Position)) (k : String) :
    posLookup ps k = none → dictInsert ps k v = ps ++ [(k, v)] := by
  induction ps with
  | nil => intro _; rfl
  | cons p ps ih =>
    intro h
    have hfind := find?_key_eq_none_of_posLookup_none h
    have hk : (p.1 == k) = false := by
      rcases hpk : (p.1 == k) with _ | _
      · rfl
      · simp [hpk] at hfind
    have htail : posLookup ps k = none := by
      unfold posLookup at h ⊢
      simpa [hk] using h
    unfold dictInsert
    rw [if_neg (by simp [hk]), ih htail]
    rfl

theorem dictErase_of_posLookup_none {ps : List (String × Position)}
    {k : String} (h : posLookup ps k = none) : dictErase ps k = ps := by
  unfold dictErase
  rw [List.filter_eq_self]
  intro p hp
  have := List.find?_eq_none.mp (find?_key_eq_none_of_posLookup_none h) p hp
  simpa using this

/-! ## Claims about the risk manager -/

/-- C1 (counterexample to the claim as stated): with the configuration
`stop_loss_ratio = -0.1`, the price `-10` makes `risk_per_share = 1 > 0`,
the guard does not fire, and the function returns the negative share count
`-300` — not `0` as claimed for every price ≤ 0. -/
theorem c1_counterexample :
    calculate_position_size cfgNegSL (-10) 10000 (1/50) = -300 ∧
    ((-10 : ℚ) ≤ 0) ∧ ((-300 : ℤ) ≠ 0) := by
  refine ⟨?_, by norm_num, by decide⟩
  unfold calculate_position_size
  dsimp only [cfgNegSL, defaultRMConfig]
  rw [if_neg (by norm_num)]
  rw [truncInt_eq_of_eq_intCast (n := 2) (by norm_num)]
  rw [truncInt_eq_of_eq_intCast (n := -3) (by norm_num)]
  norm_num

/-- C1 (amended): `calculate_position_size` returns 0 whenever
`price · stop_loss_ratio ≤ 0` (which covers every price ≤ 0 provided
`stop_loss_ratio ≥ 0`, and every non-positive `risk_per_share`); and for
valid input — positive price, non-negative capital, non-negative
`risk_per_trade` and `max_position_weight` — the result is a non-negative
multiple of the lot size 100 with `shares · price ≤
available_capital · max_position_weight`. -/
theorem c1_position_size_spec (cfg : RMConfig) (price cap rpt : ℚ) :
    (price * cfg.stop_loss_ratio ≤ 0 →
      calculate_position_size cfg price cap rpt = 0) ∧
    (0 < price → 0 ≤ cap → 0 ≤ rpt → 0 ≤ cfg.max_position_weight →
      calculate_position_size cfg price cap rpt % 100 = 0 ∧
      0 ≤ calculate_position_size cfg price cap rpt ∧
      (calculate_position_size cfg price cap rpt : ℚ) * price ≤
        cap * cfg.max_position_weight) := by
  have hrps : price - price * (1 - cfg.stop_loss_ratio) =
      price * cfg.stop_loss_ratio := by ring
  constructor
  · intro h
    unfold calculate_position_size
    dsimp only
    rw [hrps, if_pos h]
  · intro hp hcap hrpt hmpw
    unfold calculate_position_size
    dsimp only
    rw [hrps]
    by_cases h : price * cfg.stop_loss_ratio ≤ 0
    · rw [if_pos h]
      refine ⟨by decide, le_refl 0, ?_⟩
      push_cast
      rw [zero_mul]
      exact mul_nonneg hcap hmpw
    · rw [if_neg h]
      have hrpspos : 0 < price * cfg.stop_loss_ratio := lt_of_not_le h
      set s := truncInt (cap * rpt / (price * cfg.stop_loss_ratio) / 100) with hs
      set m := truncInt (cap * cfg.max_position_weight / price / 100) with hm
      have hargm : 0 ≤ cap * cfg.max_position_weight / price / 100 :=
        div_nonneg (div_nonneg (mul_nonneg hcap hmpw) hp.le) (by norm_num)
      have hs0 : 0 ≤ s := truncInt_nonneg
        (div_nonneg (div_nonneg (mul_nonneg hcap hrpt) hrpspos.le) (by norm_num))
      have hm0 : 0 ≤ m := truncInt_nonneg hargm
      refine ⟨?_, ?_, ?_⟩
      · rcases le_total (s * 100) (m * 100) with h' | h'
        · rw [min_eq_left h']; omega
        · rw [min_eq_right h']; omega
      · exact le_min (by omega) (by omega)
      · have h1 : min (s * 100) (m * 100) ≤ m * 100 := min_le_right _ _
        have h2 : ((min (s * 100) (m * 100) : ℤ) : ℚ) ≤ ((m : ℚ) * 100) := by
          exact_mod_cast h1
        have h3 : (m : ℚ) ≤ cap * cfg.max_position_weight / price / 100 :=
          truncInt_le hargm
        have h4 : (m : ℚ) * 100 ≤ cap * cfg.max_position_weight / price := by
          have := mul_le_mul_of_nonneg_right h3 (by norm_num : (0 : ℚ) ≤ 100)
          calc (m : ℚ) * 100 ≤ cap * cfg.max_position_weight / price / 100 * 100 := this
            _ = cap * cfg.max_position_weight / price :=
                div_mul_cancel₀ _ (by norm_num)
        calc ((min (s * 100) (m * 100) : ℤ) : ℚ) * price
            ≤ (m : ℚ) * 100 * price := mul_le_mul_of_nonneg_right h2 hp.le
          _ ≤ cap * cfg.max_position_weight / price * price :=
              mul_le_mul_of_nonneg_right h4 hp.le
          _ = cap * cfg.max_position_weight := div_mul_cancel₀ _ (ne_of_gt hp)

/-- C1 witness: the zero branch at `price = -10` under the default (positive)
stop-loss ratio, and the valid-input branch at `price = 5`,
`capital = 100000` (where the result is 4000 shares, costing 20000 ≤
100000 · 0.3). -/
theorem c1_witness :
    calculate_position_size defaultRMConfig (-10) 10000 (1/50) = 0 ∧
    (calculate_position_size defaultRMConfig 5 100000 (1/50) % 100 = 0 ∧
     0 ≤ calculate_position_size defaultRMConfig 5 100000 (1/50) ∧
     (calculate_position_size defaultRMConfig 5 100000 (1/50) : ℚ) * 5 ≤
       100000 * defaultRMConfig.max_position_weight) :=
  ⟨(c1_position_size_spec defaultRMConfig (-10) 10000 (1/50)).1 (by norm_num [defaultRMConfig]),
   (c1_position_size_spec defaultRMConfig 5 100000 (1/50)).2
     (by norm_num) (by norm_num) (by norm_num) (by norm_num [defaultRMConfig])⟩

/-- C2 (counterexample to the claim as stated): re-buying 100 shares of a
held symbol at 20 (old lot: 100 shares at 10) leaves the stored position at
`shares = 100, cost_price = 20` — the new lot verbatim — whereas the
volume-weighted average of the lots is 15 and the summed share count 200. -/
theorem c2_counterexample :
    posLookup (add_position stHoldingA "A" 100 20 (1/5)).positions "A" =
      some { shares := 100, cost_price := 20, target_weight := 1/5 } ∧
    (20 : ℚ) ≠ (100 * 10 + 100 * 20) / (100 + 100) ∧
    (100 : ℤ) ≠ 100 + 100 := by
  refine ⟨?_, by norm_num, by decide⟩
  unfold add_position
  rw [if_neg (by norm_num)]
  simp [stHoldingA, dictInsert, posLookup]

/-- C2 (amended): a repeat `add_position` on a held symbol with positive
shares and price overwrites the stored position with the new lot's shares,
price and target weight; no volume-weighted averaging happens. -/
theorem c2_add_position_overwrites (st : RMState) (symbol : String)
    (old : Position) (shares : ℤ) (price target_weight : ℚ)
    (hheld : posLookup st.positions symbol = some old)
    (hs : 0 < shares) (hp : 0 < price) :
    posLookup (add_position st symbol shares price target_weight).positions
      symbol =
      some { shares := shares, cost_price := price,
             target_weight := target_weight } := by
  unfold add_position
  rw [if_neg (by push_neg; exact ⟨hs, hp⟩)]
  exact posLookup_dictInsert _ _ _

/-- C2 witness: the overwrite theorem applied to the concrete held
portfolio of `c2_counterexample`. -/
theorem c2_witness :
    posLookup (add_position stHoldingA "A" 100 20 (1/5)).positions "A" =
      some { shares := 100, cost_price := 20, target_weight := 1/5 } :=
  c2_add_position_overwrites stHoldingA "A"
    { shares := 100, cost_price := 10, target_weight := 1/5 }
    100 20 (1/5) (by simp [stHoldingA, posLookup]) (by decide) (by norm_num)

/-- C7: adding a fresh position and immediately removing it at the same
price appends exactly one trade with `profit_pct = 0` and restores every
other component of the portfolio state (positions, equity curve) to its
pre-add value.  The `RiskManager` tracks no cash balance at all, so the
claim's "cash restored, fee = 0" holds vacuously: nothing besides the trade
log changes. -/
theorem c7_round_trip (st : RMState) (symbol : String) (shares : ℤ)
    (price target_weight : ℚ)
    (hfree : posLookup st.positions symbol = none)
    (hs : 0 < shares) (hp : 0 < price) :
    remove_position (add_position st symbol shares price target_weight)
      symbol price =
      { st with
        trade_history := st.trade_history ++
          [{ symbol := symbol, shares := shares, buy_price := price,
             sell_price := price, profit_pct := 0 }] } := by
  have hfind := find?_key_eq_none_of_posLookup_none hfree
  have hadd : add_position st symbol shares price target_weight =
      { st with positions := st.positions ++
          [(symbol, { shares := shares, cost_price := price,
                      target_weight := target_weight })] } := by
    unfold add_position
    rw [if_neg (by push_neg; exact ⟨hs, hp⟩),
      dictInsert_of_posLookup_none _ _ _ hfree]
  have hlook : posLookup (st.positions ++
      [(symbol, { shares := shares, cost_price := price,
                  target_weight := target_weight })]) symbol =
      some { shares := shares, cost_price := price,
             target_weight := target_weight } := by
    simp [posLookup, List.find?_append, hfind]
  have herase : dictErase (st.positions ++
      [(symbol, { shares := shares, cost_price := price,
                  target_weight := target_weight })]) symbol = st.positions := by
    unfold dictErase
    rw [List.filter_append]
    have h1 : st.positions.filter (fun p => !(p.1 == symbol)) = st.positions := by
      rw [List.filter_eq_self]
      intro p hp
      simpa using List.find?_eq_none.mp hfind p hp
    simp [h1]
  rw [hadd]
  unfold remove_position
  rw [hlook]
  have hprofit : (price - price) / price * 100 = 0 := by
    rw [sub_self, zero_div, zero_mul]
  simp only [herase, hprofit]

/-- C7 witness: the round trip on an empty portfolio, symbol `"A"`, 100
shares at price 10. -/
theorem c7_witness :
    remove_position (add_position emptyRMState "A" 100 10 (1/5)) "A" 10 =
      { emptyRMState with
        trade_history := [{ symbol := "A", shares := 100, buy_price := 10,
                            sell_price := 10, profit_pct := 0 }] } :=
  c7_round_trip emptyRMState "A" 100 10 (1/5) (by simp [emptyRMState, posLookup])
    (by decide) (by norm_num)

/-- C8 (counterexample to the claim as stated): with `initial_capital =
-100` and `current_value = -80` the claimed drawdown condition holds
(`(−100−(−80))/(−100) = 0.2 ≥ 0.15`) but the code skips the drawdown branch
entirely (it requires `initial_capital > 0`) and returns `false`. -/
theorem c8_counterexample :
    (should_stop_trading cfgNegIC emptyRMState (-80)).1 = false ∧
    cfgNegIC.max_drawdown_limit ≤
      (cfgNegIC.initial_capital - (-80)) / cfgNegIC.initial_capital := by
  constructor
  · unfold should_stop_trading
    rw [if_neg (by norm_num [cfgNegIC, defaultRMConfig]),
      if_neg (by simp [emptyRMState])]
  · norm_num [cfgNegIC, defaultRMConfig]

/-- C8 (amended): `should_stop_trading` returns true iff `initial_capital >
0` and the drawdown `(initial_capital − current_value)/initial_capital` is
at least `max_drawdown_limit`, or the trade history holds at least 3 trades
and the last 3 all have `profit_pct < 0`; in particular three consecutive
losses trigger it regardless of drawdown. -/
theorem c8_should_stop_iff (cfg : RMConfig) (st : RMState) (current_value : ℚ) :
    (should_stop_trading cfg st current_value).1 = true ↔
      ((0 < cfg.initial_capital ∧
        cfg.max_drawdown_limit ≤
          (cfg.initial_capital - current_value) / cfg.initial_capital) ∨
       (3 ≤ st.trade_history.length ∧
        ∀ t ∈ st.trade_history.drop (st.trade_history.length - 3),
          t.profit_pct < 0)) := by
  unfold should_stop_trading
  split_ifs with h1 h2
  · simpa using Or.inl h1
  · refine iff_of_true rfl (Or.inr ⟨h2.1, ?_⟩)
    intro t ht
    have := List.all_eq_true.mp h2.2 t ht
    exact of_decide_eq_true this
  · simp only [false_iff]
    rintro (h | h)
    · exact h1 h
    · refine h2 ⟨h.1, ?_⟩
      rw [List.all_eq_true]
      intro t ht
      exact decide_eq_true (h.2 t ht)

/-- C8 witness: Scenario D — three consecutive −10% trades in the history
make `should_stop_trading` return true even with zero drawdown. -/
theorem c8_witness :
    (should_stop_trading defaultRMConfig
      { emptyRMState with
        trade_history := [losingTrade, losingTrade, losingTrade] } 10000).1 =
      true :=
  (c8_should_stop_iff defaultRMConfig
    { emptyRMState with
      trade_history := [losingTrade, losingTrade, losingTrade] } 10000).mpr
    (Or.inr ⟨by decide, by decide⟩)

/-- C10 (counterexample to the claim as stated): a `RiskManager` constructed
with `initial_capital = 0` raises `ZeroDivisionError` in the very first
statement of `calculate_risk_metrics` (modelled as `none`) — it returns no
metrics at all, for any `current_value` and an empty book. -/
theorem c10_counterexample :
    calculate_risk_metrics cfgZeroIC emptyRMState 100 = none := by decide

/-- C10 (amended): for every configuration with `initial_capital ≠ 0` and
every portfolio with no open positions, `calculate_risk_metrics` returns
metrics with `cash_ratio = 1.0`, `concentration = 0` and
`position_count = 0`, whatever `current_value` is. -/
theorem c10_empty_portfolio_metrics (cfg : RMConfig) (st : RMState)
    (current_value : ℚ)
    (hic : cfg.initial_capital ≠ 0) (hpos : st.positions = []) :
    (calculate_risk_metrics cfg st current_value).map RMetricsOut.cash_ratio =
      some 1 ∧
    (calculate_risk_metrics cfg st current_value).map
      RMetricsOut.concentration = some 0 ∧
    (calculate_risk_metrics cfg st current_value).map
      RMetricsOut.position_count = some 0 := by
  unfold calculate_risk_metrics
  rw [if_neg hic]
  simp [hpos]

/-- C10 witness: the default configuration, empty portfolio, `current_value
= 42`. -/
theorem c10_witness :
    (calculate_risk_metrics defaultRMConfig emptyRMState 42).map
      RMetricsOut.cash_ratio = some 1 ∧
    (calculate_risk_metrics defaultRMConfig emptyRMState 42).map
      RMetricsOut.concentration = some 0 ∧
    (calculate_risk_metrics defaultRMConfig emptyRMState 42).map
      RMetricsOut.position_count = some 0 :=
  c10_empty_portfolio_metrics defaultRMConfig emptyRMState 42
    (by decide) (by decide)

/-! ## Claims about the indicator engine and signal thresholds -/

/-- C3 (counterexample to the claim as stated): the strictly rising series
`[1,…,7]` with period 6 has average loss 0 and average gain 1 over the
window; numpy turns `avg_gain / 0` into `inf`, so the RSI is `100 −
100/(1+inf) = 100` — which is not `NaN` and therefore bypasses the
`pd.isna` fallback to 50. -/
theorem c3_counterexample :
    rsi [1, 2, 3, 4, 5, 6, 7] 6 = 100 ∧
    avg_loss_last [1, 2, 3, 4, 5, 6, 7] 6 = 0 ∧ (100 : ℚ) ≠ 50 := by
  have hloss : avg_loss_last [1, 2, 3, 4, 5, 6, 7] 6 = 0 := by
    unfold avg_loss_last
    rw [show rsi_deltas [1, 2, 3, 4, 5, 6, 7] 6 = [1, 1, 1, 1, 1, 1] from by
      unfold rsi_deltas diffs
      rw [show lastN 7 [(1 : ℚ), 2, 3, 4, 5, 6, 7] = [1, 2, 3, 4, 5, 6, 7]
        from rfl]
      norm_num]
    norm_num [max_def]
  have hgain : avg_gain_last [1, 2, 3, 4, 5, 6, 7] 6 = 1 := by
    unfold avg_gain_last
    rw [show rsi_deltas [1, 2, 3, 4, 5, 6, 7] 6 = [1, 1, 1, 1, 1, 1] from by
      unfold rsi_deltas diffs
      rw [show lastN 7 [(1 : ℚ), 2, 3, 4, 5, 6, 7] = [1, 2, 3, 4, 5, 6, 7]
        from rfl]
      norm_num]
    norm_num [max_def]
  refine ⟨?_, hloss, by norm_num⟩
  unfold rsi
  rw [if_neg (by decide), if_pos hloss, if_neg (by rw [hgain]; norm_num)]

/-- C3 (amended): with enough history and a zero rolling average loss, the
RSI computation is total (no `NaN` reaches the caller, no division fault)
and returns 50 exactly when the average gain is also 0 (`0/0`, the `NaN`
fallback), and 100 when the average gain is positive (`gain/0 = inf`). -/
theorem c3_rsi_zero_loss (closes : List ℚ) (period : ℕ)
    (hlen : period + 1 ≤ closes.length)
    (hloss : avg_loss_last closes period = 0) :
    rsi closes period =
      if avg_gain_last closes period = 0 then 50 else 100 := by
  unfold rsi
  rw [if_neg (not_lt.mpr hlen), if_pos hloss]

/-- C3 witness: the zero-loss theorem applied to `[1,…,7]`, period 6. -/
theorem c3_witness :
    rsi [1, 2, 3, 4, 5, 6, 7] 6 =
      if avg_gain_last [1, 2, 3, 4, 5, 6, 7] 6 = 0 then 50 else 100 :=
  c3_rsi_zero_loss [1, 2, 3, 4, 5, 6, 7] 6 (by decide) (by
    unfold avg_loss_last
    rw [show rsi_deltas [1, 2, 3, 4, 5, 6, 7] 6 = [1, 1, 1, 1, 1, 1] from by
      unfold rsi_deltas diffs
      rw [show lastN 7 [(1 : ℚ), 2, 3, 4, 5, 6, 7] = [1, 2, 3, 4, 5, 6, 7]
        from rfl]
      norm_num]
    norm_num [max_def])

/-- C4: any price series shorter than 60 bars (the empty one included)
makes `calculate_indicators` return the sentinel `TechnicalIndicators()` —
every indicator field unset, trend `UNKNOWN`, the default score 50 — and
the function is total, so no exception can escape. -/
theorem c4_short_series_sentinel (df : List Bar) (h : df.length < 60) :
    calculate_indicators df = {} ∧
    (calculate_indicators df).ma5 = none ∧
    (calculate_indicators df).ma10 = none ∧
    (calculate_indicators df).ma20 = none ∧
    (calculate_indicators df).ma60 = none ∧
    (calculate_indicators df).ma120 = none ∧
    (calculate_indicators df).ema5 = none ∧
    (calculate_indicators df).ema10 = none ∧
    (calculate_indicators df).ema20 = none ∧
    (calculate_indicators df).macd = none ∧
    (calculate_indicators df).signal = none ∧
    (calculate_indicators df).histogram = none ∧
    (calculate_indicators df).rsi6 = none ∧
    (calculate_indicators df).rsi12 = none ∧
    (calculate_indicators df).rsi24 = none ∧
    (calculate_indicators df).bollinger_upper = none ∧
    (calculate_indicators df).bollinger_middle = none ∧
    (calculate_indicators df).bollinger_lower = none ∧
    (calculate_indicators df).bollinger_width = none ∧
    (calculate_indicators df).atr14 = none ∧
    (calculate_indicators df).atr10 = none ∧
    (calculate_indicators df).volume_ma5 = none ∧
    (calculate_indicators df).volume_ma10 = none ∧
    (calculate_indicators df).volume_ma20 = none ∧
    (calculate_indicators df).volume_ratio = none ∧
    (calculate_indicators df).trend = TrendType.UNKNOWN ∧
    (calculate_indicators df).score = 50 := by
  have hs : calculate_indicators df = {} := by
    unfold calculate_indicators
    rw [if_pos h]
  rw [hs]
  exact ⟨rfl, rfl, rfl, rfl, rfl, rfl, rfl, rfl, rfl, rfl, rfl, rfl, rfl,
    rfl, rfl, rfl, rfl, rfl, rfl, rfl, rfl, rfl, rfl, rfl, rfl, rfl, rfl⟩

/-- C4 witness: the sentinel theorem at the empty series. -/
theorem c4_witness :
    calculate_indicators [] = {} ∧
    (calculate_indicators []).ma5 = none ∧
    (calculate_indicators []).ma10 = none ∧
    (calculate_indicators []).ma20 = none ∧
    (calculate_indicators []).ma60 = none ∧
    (calculate_indicators []).ma120 = none ∧
    (calculate_indicators []).ema5 = none ∧
    (calculate_indicators []).ema10 = none ∧
    (calculate_indicators []).ema20 = none ∧
    (calculate_indicators []).macd = none ∧
    (calculate_indicators []).signal = none ∧
    (calculate_indicators []).histogram = none ∧
    (calculate_indicators []).rsi6 = none ∧
    (calculate_indicators []).rsi12 = none ∧
    (calculate_indicators []).rsi24 = none ∧
    (calculate_indicators []).bollinger_upper = none ∧
    (calculate_indicators []).bollinger_middle = none ∧
    (calculate_indicators []).bollinger_lower = none ∧
    (calculate_indicators []).bollinger_width = none ∧
    (calculate_indicators []).atr14 = none ∧
    (calculate_indicators []).atr10 = none ∧
    (calculate_indicators []).volume_ma5 = none ∧
    (calculate_indicators []).volume_ma10 = none ∧
    (calculate_indicators []).volume_ma20 = none ∧
    (calculate_indicators []).volume_ratio = none ∧
    (calculate_indicators []).trend = TrendType.UNKNOWN ∧
    (calculate_indicators []).score = 50 :=
  c4_short_series_sentinel [] (by decide)

/-- C9 (counterexample to the claim as stated): a composite score of 32 is
at least the claimed SELL floor of 30 (and below every higher floor), so
the claim maps it to SELL — but `AIStockPicker.generate_trading_signal`
maps it to `strong_sell`, because that path's SELL floor is 35, not 30. -/
theorem c9_counterexample :
    ai_signal_from_score 32 = "strong_sell" ∧ (30 : ℚ) ≤ 32 ∧
    ¬ (50 : ℚ) ≤ 32 ∧ "strong_sell" ≠ "sell" := by
  refine ⟨?_, by norm_num, by norm_num, by decide⟩
  unfold ai_signal_from_score
  rw [if_neg (by norm_num), if_neg (by norm_num), if_neg (by norm_num),
    if_neg (by norm_num)]

/-- C9 (amended): `TechnicalAnalyzer.generate_signal` maps the composite
score through the thresholds 80 / 65 / 45 / 30 (STRONG_BUY / BUY / HOLD /
SELL, else STRONG_SELL) whenever the indicators are available, and
`AIStockPicker.generate_trading_signal` maps its composite score through
80 / 65 / 50 / 35 — the alternate HOLD floor of the claim is 50, but the
SELL floor on that path is 35, not 30. -/
theorem c9_signal_thresholds :
    (∀ df : List Bar, (calculate_indicators df).ma5.isSome = true →
      (ta_generate_signal df).signal =
        (if 80 ≤ (calculate_indicators df).score then SignalType.STRONG_BUY
         else if 65 ≤ (calculate_indicators df).score then SignalType.BUY
         else if 45 ≤ (calculate_indicators df).score then SignalType.HOLD
         else if 30 ≤ (calculate_indicators df).score then SignalType.SELL
         else SignalType.STRONG_SELL)) ∧
    (∀ q : ℚ, ai_signal_from_score q =
      (if 80 ≤ q then "strong_buy"
       else if 65 ≤ q then "buy"
       else if 50 ≤ q then "hold"
       else if 35 ≤ q then "sell"
       else "strong_sell")) := by
  constructor
  · intro df h
    unfold ta_generate_signal
    dsimp only
    rcases hma : (calculate_indicators df).ma5 with _ | m
    · rw [hma] at h; simp at h
    · dsimp only
      simp only [ge_iff_le]
      split_ifs <;> rfl
  · intro q
    unfold ai_signal_from_score
    simp only [ge_iff_le]

/-- C9 witness: the technical-analysis branch instantiated on 60 flat bars
(where the indicators are available), and the AI branch at score 42. -/
theorem c9_witness :
    (ta_generate_signal df60).signal =
      (if 80 ≤ (calculate_indicators df60).score then SignalType.STRONG_BUY
       else if 65 ≤ (calculate_indicators df60).score then SignalType.BUY
       else if 45 ≤ (calculate_indicators df60).score then SignalType.HOLD
       else if 30 ≤ (calculate_indicators df60).score then SignalType.SELL
       else SignalType.STRONG_SELL) ∧
    ai_signal_from_score 42 =
      (if 80 ≤ (42 : ℚ) then "strong_buy"
       else if 65 ≤ (42 : ℚ) then "buy"
       else if 50 ≤ (42 : ℚ) then "hold"
       else if 35 ≤ (42 : ℚ) then "sell"
       else "strong_sell") :=
  ⟨c9_signal_thresholds.1 df60 (by
    unfold calculate_indicators
    rw [if_neg (by decide)]
    dsimp only
    unfold sma
    rw [if_neg (by decide)]
    rfl),
   c9_signal_thresholds.2 42⟩

/-! ## Claims about the moving-average strategies -/

/-- C5 (counterexample to the claim as stated): one strategy instance,
first call on symbol `"A"` (golden-cross data) emits BUY and sets the
shared state to LONG; the very next call on symbol `"B"` (death-cross
data) emits SELL even though it is `"B"`'s first-ever call — under
per-symbol state `"B"` would still carry NONE, where a SELL is impossible,
and indeed the same call from the fresh state emits HOLD.  The state is one
instance field shared across all symbols, not per-symbol. -/
theorem c5_counterexample :
    (ma_generate_signal_sym 5 20 marketAB "A" .flat).1.signal =
      SignalType.BUY ∧
    (ma_generate_signal_sym 5 20 marketAB "B"
      (ma_generate_signal_sym 5 20 marketAB "A" .flat).2).1.signal =
      SignalType.SELL ∧
    (ma_generate_signal_sym 5 20 marketAB "B" .flat).1.signal =
      SignalType.HOLD := by
  have hmA : marketAB "A" = dfGold := rfl
  have hmB : marketAB "B" = dfDeath := rfl
  have hg_last : ma_short_above 5 20 dfGold = true := by
    unfold ma_short_above rollingMeanLast
    rw [if_neg (by decide), if_neg (by decide)]
    rw [show lastN 5 dfGold = [100, 100, 100, 100, 200] from rfl]
    rw [show lastN 20 dfGold =
      [100, 100, 100, 100, 100, 100, 100, 100, 100, 100, 100, 100, 100,
       100, 100, 100, 100, 100, 100, 200] from rfl]
    simp only [optGt, decide_eq_true_eq]
    norm_num
  have hg_prev : ma_short_above 5 20 dfGold.dropLast = false := by
    unfold ma_short_above rollingMeanLast
    rw [if_neg (by decide), if_neg (by decide)]
    rw [show lastN 5 dfGold.dropLast = [100, 100, 100, 100, 100] from rfl]
    rw [show lastN 20 dfGold.dropLast =
      [100, 100, 100, 100, 100, 100, 100, 100, 100, 100, 100, 100, 100,
       100, 100, 100, 100, 100, 100, 100] from rfl]
    simp only [optGt, decide_eq_false_iff_not]
    norm_num
  have hgold : golden_cross 5 20 dfGold = true := by
    unfold golden_cross
    rw [hg_last, hg_prev]
    rfl
  have hd_last : ma_short_above 5 20 dfDeath = false := by
    unfold ma_short_above rollingMeanLast
    rw [if_neg (by decide), if_neg (by decide)]
    rw [show lastN 5 dfDeath = [21, 22, 23, 24, -100] from rfl]
    rw [show lastN 20 dfDeath =
      [6, 7, 8, 9, 10, 11, 12, 13, 14, 15, 16, 17, 18, 19, 20, 21, 22, 23,
       24, -100] from rfl]
    simp only [optGt, decide_eq_false_iff_not]
    norm_num
  have hd_prev : ma_short_above 5 20 dfDeath.dropLast = true := by
    unfold ma_short_above rollingMeanLast
    rw [if_neg (by decide), if_neg (by decide)]
    rw [show lastN 5 dfDeath.dropLast = [20, 21, 22, 23, 24] from rfl]
    rw [show lastN 20 dfDeath.dropLast =
      [5, 6, 7, 8, 9, 10, 11, 12, 13, 14, 15, 16, 17, 18, 19, 20, 21, 22,
       23, 24] from rfl]
    simp only [optGt, decide_eq_true_eq]
    norm_num
  have hdeath : death_cross 5 20 dfDeath = true := by
    unfold death_cross
    rw [hd_last, hd_prev]
    rfl
  have hgold_death : death_cross 5 20 dfGold = false :=
    death_cross_eq_false_of_golden hgold
  have hdeath_gold : golden_cross 5 20 dfDeath = false := by
    unfold golden_cross
    rw [hd_last]
    rfl
  have hbuy : ma_generate_signal 5 20 dfGold .flat =
      ({ signal := .BUY, reason := "金叉" }, .long) := by
    unfold ma_generate_signal
    rw [if_neg (by decide), if_pos hgold, if_pos (by decide)]
  have hsell : ma_generate_signal 5 20 dfDeath .long =
      ({ signal := .SELL, reason := "死叉" }, .flat) := by
    unfold ma_generate_signal
    rw [if_neg (by decide), if_neg (by rw [hdeath_gold]; exact Bool.false_ne_true),
      if_pos hdeath, if_pos rfl]
  have hhold : ma_generate_signal 5 20 dfDeath .flat =
      ({ signal := .HOLD, reason := "无交叉信号" }, .flat) := by
    unfold ma_generate_signal
    rw [if_neg (by decide), if_neg (by rw [hdeath_gold]; exact Bool.false_ne_true),
      if_pos hdeath, if_neg (by decide)]
  refine ⟨?_, ?_, ?_⟩
  · unfold ma_generate_signal_sym
    rw [hmA, hbuy]
  · unfold ma_generate_signal_sym
    rw [hmA, hmB, hbuy, hsell]
  · unfold ma_generate_signal_sym
    rw [hmB, hhold]

/-- C5 (amended): within one strategy instance the transition logic is as
claimed — BUY exactly on a golden-cross bar with carried state ≠ LONG
(state becomes LONG), SELL exactly on a death-cross bar with carried state
LONG (state becomes NONE), HOLD on every other bar with the state left
unchanged — but the carried state is a single per-instance field shared by
every symbol passed to `generate_signal`, not a per-symbol one. -/
theorem c5_cross_state_machine (short_ma long_ma : ℕ) (closes : List ℚ)
    (pos : PosState) :
    ((ma_generate_signal short_ma long_ma closes pos).1.signal =
        SignalType.BUY ↔
      (long_ma + 5 ≤ closes.length ∧
       golden_cross short_ma long_ma closes = true ∧ pos ≠ .long)) ∧
    ((ma_generate_signal short_ma long_ma closes pos).1.signal =
        SignalType.SELL ↔
      (long_ma + 5 ≤ closes.length ∧
       death_cross short_ma long_ma closes = true ∧ pos = .long)) ∧
    ((ma_generate_signal short_ma long_ma closes pos).1.signal ≠
        SignalType.BUY →
      (ma_generate_signal short_ma long_ma closes pos).1.signal ≠
        SignalType.SELL →
      (ma_generate_signal short_ma long_ma closes pos).1.signal =
        SignalType.HOLD) ∧
    ((ma_generate_signal short_ma long_ma closes pos).1.signal =
        SignalType.BUY →
      (ma_generate_signal short_ma long_ma closes pos).2 = PosState.long) ∧
    ((ma_generate_signal short_ma long_ma closes pos).1.signal =
        SignalType.SELL →
      (ma_generate_signal short_ma long_ma closes pos).2 = PosState.flat) ∧
    ((ma_generate_signal short_ma long_ma closes pos).1.signal =
        SignalType.HOLD →
      (ma_generate_signal short_ma long_ma closes pos).2 = pos) := by
  unfold ma_generate_signal
  by_cases hlen : closes.length < long_ma + 5
  · rw [if_pos hlen]
    refine ⟨⟨?_, ?_⟩, ⟨?_, ?_⟩, ?_, ?_, ?_, ?_⟩
    · intro h; exact nomatch h
    · intro h; exact absurd h.1 (by omega)
    · intro h; exact nomatch h
    · intro h; exact absurd h.1 (by omega)
    · intro _ _; rfl
    · intro h; exact nomatch h
    · intro h; exact nomatch h
    · intro _; rfl
  · rw [if_neg hlen]
    by_cases hg : golden_cross short_ma long_ma closes = true
    · rw [if_pos hg]
      have hnd : ¬(death_cross short_ma long_ma closes = true) := by
        rw [death_cross_eq_false_of_golden hg]
        exact Bool.false_ne_true
      by_cases hpos : pos ≠ PosState.long
      · rw [if_pos hpos]
        refine ⟨⟨?_, ?_⟩, ⟨?_, ?_⟩, ?_, ?_, ?_, ?_⟩
        · intro _; exact ⟨by omega, hg, hpos⟩
        · intro _; rfl
        · intro h; exact nomatch h
        · intro h; exact absurd h.2.1 hnd
        · intro h _; exact (h rfl).elim
        · intro _; rfl
        · intro h; exact nomatch h
        · intro h; exact nomatch h
      · rw [if_neg hpos]
        refine ⟨⟨?_, ?_⟩, ⟨?_, ?_⟩, ?_, ?_, ?_, ?_⟩
        · intro h; exact nomatch h
        · intro h; exact absurd h.2.2 hpos
        · intro h; exact nomatch h
        · intro h; exact absurd h.2.1 hnd
        · intro _ _; rfl
        · intro h; exact nomatch h
        · intro h; exact nomatch h
        · intro _; rfl
    · rw [if_neg hg]
      by_cases hd : death_cross short_ma long_ma closes = true
      · rw [if_pos hd]
        by_cases hp2 : pos = PosState.long
        · rw [if_pos hp2]
          refine ⟨⟨?_, ?_⟩, ⟨?_, ?_⟩, ?_, ?_, ?_, ?_⟩
          · intro h; exact nomatch h
          · intro h; exact absurd h.2.1 hg
          · intro _; exact ⟨by omega, hd, hp2⟩
          · intro _; rfl
          · intro _ h; exact (h rfl).elim
          · intro h; exact nomatch h
          · intro _; rfl
          · intro h; exact nomatch h
        · rw [if_neg hp2]
          refine ⟨⟨?_, ?_⟩, ⟨?_, ?_⟩, ?_, ?_, ?_, ?_⟩
          · intro h; exact nomatch h
          · intro h; exact absurd h.2.1 hg
          · intro h; exact nomatch h
          · intro h; exact absurd h.2.2 hp2
          · intro _ _; rfl
          · intro h; exact nomatch h
          · intro h; exact nomatch h
          · intro _; rfl
      · rw [if_neg hd]
        refine ⟨⟨?_, ?_⟩, ⟨?_, ?_⟩, ?_, ?_, ?_, ?_⟩
        · intro h; exact nomatch h
        · intro h; exact absurd h.2.1 hg
        · intro h; exact nomatch h
        · intro h; exact absurd h.2.1 hd
        · intro _ _; rfl
        · intro h; exact nomatch h
        · intro h; exact nomatch h
        · intro _; rfl

/-- C5 witness: the BUY characterization instantiated at the golden-cross
series, 25 bars, short 5 / long 20, carried state NONE. -/
theorem c5_witness :
    (ma_generate_signal 5 20 dfGold .flat).1.signal = SignalType.BUY :=
  (c5_cross_state_machine 5 20 dfGold .flat).1.mpr
    ⟨by decide,
     by
      unfold golden_cross ma_short_above rollingMeanLast
      rw [if_neg (by decide), if_neg (by decide), if_neg (by decide),
        if_neg (by decide)]
      rw [show lastN 5 dfGold = [100, 100, 100, 100, 200] from rfl]
      rw [show lastN 20 dfGold =
        [100, 100, 100, 100, 100, 100, 100, 100, 100, 100, 100, 100, 100,
         100, 100, 100, 100, 100, 100, 200] from rfl]
      rw [show lastN 5 dfGold.dropLast = [100, 100, 100, 100, 100] from rfl]
      rw [show lastN 20 dfGold.dropLast =
        [100, 100, 100, 100, 100, 100, 100, 100, 100, 100, 100, 100, 100,
         100, 100, 100, 100, 100, 100, 100] from rfl]
      simp only [optGt, Bool.and_eq_true, Bool.not_eq_true',
        decide_eq_true_eq, decide_eq_false_iff_not]
      norm_num,
     by decide⟩

/-- C6: whenever the trend filter or the volatility filter rejects the
input series, the enhanced strategy returns HOLD with a non-empty reason
and the carried cross-detection state is exactly the state passed in. -/
theorem c6_filters_hold_no_mutation (short_ma long_ma : ℕ) (closes : List ℚ)
    (pos : PosState)
    (h : filter_by_trend closes = false ∨ filter_by_volatility closes = false) :
    (dual_ma_generate_signal short_ma long_ma closes pos).1.signal =
      SignalType.HOLD ∧
    (dual_ma_generate_signal short_ma long_ma closes pos).2 = pos ∧
    (dual_ma_generate_signal short_ma long_ma closes pos).1.reason ≠ "" := by
  unfold dual_ma_generate_signal
  split_ifs with hlen ht hv
  · exact ⟨rfl, rfl, by dsimp only; decide⟩
  · exact ⟨rfl, rfl, by dsimp only; decide⟩
  · exact ⟨rfl, rfl, by dsimp only; decide⟩
  · exfalso
    simp only [Bool.not_eq_true, Bool.not_eq_false] at ht hv
    rcases h with h | h
    · rw [h] at ht; exact nomatch ht
    · rw [h] at hv; exact nomatch hv

/-- C6 witness: 60 flat closes — the trend filter rejects (the last close
is not strictly above the 60-bar mean), so the enhanced strategy holds and
the state is untouched. -/
theorem c6_witness :
    (dual_ma_generate_signal 5 20 dfFlat60 .flat).1.signal =
      SignalType.HOLD ∧
    (dual_ma_generate_signal 5 20 dfFlat60 .flat).2 = PosState.flat ∧
    (dual_ma_generate_signal 5 20 dfFlat60 .flat).1.reason ≠ "" :=
  c6_filters_hold_no_mutation 5 20 dfFlat60 .flat
    (Or.inl (by
      unfold filter_by_trend rollingMeanLast
      rw [if_neg (by decide), if_neg (by decide)]
      rw [show dfFlat60.getLastD 0 = 100 from rfl]
      rw [show lastN 60 dfFlat60 = dfFlat60 from rfl]
      simp only [optGt, decide_eq_false_iff_not]
      rw [show (dfFlat60 : List ℚ).sum = 6000 from by
        norm_num [dfFlat60, List.sum_replicate]]
      norm_num))

end StockTrader
